import Mathlib

/-
Verification of the predicates library: a composable boolean-predicate
abstraction.  Rules are single-argument functions returning a truthy or
falsy value; Predicate objects wrap them and compose via logical
operators (AND, OR, XOR, DIFFERENCE, NOT).

The embedding models the dynamic values a rule can return with an
inductive type PyVal covering booleans and integers (booleans being an
integer subtype in the host language), together with the truthiness
test used by conditionals, the boolean operator and, and numeric
summation used by the exclusive union.
-/

namespace Predicates

/-- Dynamic values returned by rules: booleans and integers. -/
inductive PyVal where
  | bool (b : Bool)
  | int (n : Int)
deriving DecidableEq, Repr

/-- Truthiness of a value: a boolean is its own truth value, an integer
is truthy iff nonzero. -/
def PyVal.truthy : PyVal → Bool
  | .bool b => b
  | .int n => n != 0

/-- Numeric value of a PyVal, as used by summation: booleans count as
0 or 1, integers as themselves. -/
def PyVal.toInt : PyVal → Int
  | .bool b => if b then 1 else 0
  | .int n => n

/-- The host-language binary operator and: returns the left operand if
it is falsy, otherwise the right operand. -/
def pyAnd (a b : PyVal) : PyVal :=
  if a.truthy then b else a

/-- The host-language unary operator not: always an actual boolean. -/
def pyNot (a : PyVal) : PyVal :=
  .bool (!a.truthy)

/-- A rule: a single-argument function producing a truthy or falsy value. -/
def TruthFinder (α : Type) : Type := α → PyVal

/-- Placeholder function that always evaluates to True. -/
def always_true {α : Type} (_ : α) : PyVal := .bool true

/-- Placeholder function that always evaluates to False. -/
def always_false {α : Type} (_ : α) : PyVal := .bool false

/-- Callable object that evaluates a boolean based on a callable rule. -/
structure Predicate (α : Type) where
  rule : TruthFinder α

/-- The given item passes the rule of the Predicate: returns the raw
result of the rule call. -/
def Predicate.item_passes (p : Predicate α) (item : α) : PyVal :=
  p.rule item

/-- Calling the Predicate object itself delegates to item_passes. -/
def Predicate.call (p : Predicate α) (item : α) : PyVal :=
  p.item_passes item

/-- Returns the items of the iterable for which the Predicate is valid,
via the standard filtering facility, which keeps items whose image
under the callable is truthy, in order. -/
def Predicate.filtered (p : Predicate α) (iterable : List α) : List α :=
  iterable.filter fun item => (p.call item).truthy

/-- Represents a set of rules which must ALL be True. -/
structure PredicateIntersection (α : Type) where
  rules : List (TruthFinder α)

/-- Intersection evaluation: the standard all over the rule results,
which yields an actual boolean. -/
def PredicateIntersection.item_passes (p : PredicateIntersection α) (item : α) : PyVal :=
  .bool (p.rules.all fun rule => (rule item).truthy)

/-- Calling the object delegates to item_passes. -/
def PredicateIntersection.call (p : PredicateIntersection α) (item : α) : PyVal :=
  p.item_passes item

/-- Represents a set of rules where ANY rule must be True. -/
structure PredicateUnion (α : Type) where
  rules : List (TruthFinder α)

/-- Union evaluation: the standard any over the rule results, which
yields an actual boolean. -/
def PredicateUnion.item_passes (p : PredicateUnion α) (item : α) : PyVal :=
  .bool (p.rules.any fun rule => (rule item).truthy)

/-- Calling the object delegates to item_passes. -/
def PredicateUnion.call (p : PredicateUnion α) (item : α) : PyVal :=
  p.item_passes item

/-- Represents a set of rules where ONLY ONE rule must be True. -/
structure ExclusivePredicateUnion (α : Type) where
  rules : List (TruthFinder α)

/-- Exclusive union evaluation: exploits the fact that booleans are
integers, summing the rule results and comparing the sum with 1. -/
def ExclusivePredicateUnion.item_passes (p : ExclusivePredicateUnion α) (item : α) : PyVal :=
  .bool (decide ((p.rules.map fun rule => (rule item).toInt).sum = 1))

/-- Calling the object delegates to item_passes. -/
def ExclusivePredicateUnion.call (p : ExclusivePredicateUnion α) (item : α) : PyVal :=
  p.item_passes item

/-- Represents an A minus B set operation of rules. -/
structure PredicateDifference (α : Type) where
  rule_a : TruthFinder α
  rule_b : TruthFinder α

/-- Difference evaluation: the expression rule_a item and not rule_b
item, with the host-language semantics of and. -/
def PredicateDifference.item_passes (p : PredicateDifference α) (item : α) : PyVal :=
  pyAnd (p.rule_a item) (pyNot (p.rule_b item))

/-- Calling the object delegates to item_passes. -/
def PredicateDifference.call (p : PredicateDifference α) (item : α) : PyVal :=
  p.item_passes item

/-- The AND operator on a Predicate: builds an intersection of the
object itself (as a callable) and the other rule. -/
def Predicate.and (p : Predicate α) (other : TruthFinder α) : PredicateIntersection α :=
  ⟨[p.call, other]⟩

/-- The OR operator on a Predicate: builds a union of the object itself
and the other rule. -/
def Predicate.or (p : Predicate α) (other : TruthFinder α) : PredicateUnion α :=
  ⟨[p.call, other]⟩

/-- The subtraction operator on a Predicate: builds a difference of the
object itself and the other rule. -/
def Predicate.sub (p : Predicate α) (other : TruthFinder α) : PredicateDifference α :=
  ⟨p.call, other⟩

/-- The inversion operator on a Predicate: a difference with an
always-true first rule and the object itself as second rule. -/
def Predicate.invert (p : Predicate α) : PredicateDifference α :=
  ⟨always_true, p.call⟩

/-- The XOR operator on a Predicate: builds an exclusive union of the
object itself and the other rule. -/
def Predicate.xor (p : Predicate α) (other : TruthFinder α) : ExclusivePredicateUnion α :=
  ⟨[p.call, other]⟩

/-- The inversion operator as inherited by a PredicateDifference: same
body, with the callable of the difference object as second rule. -/
def PredicateDifference.invert (p : PredicateDifference α) : PredicateDifference α :=
  ⟨always_true, p.call⟩

/-- A host-language function object carrying introspection metadata
(its name and docstring) next to the function itself. -/
structure PyFunc (β γ : Type) where
  name : String
  doc : String
  fn : β → γ

/-- Decorator to convert a function into a Predicate factory: the
wrapper calls the original factory and wraps the produced rule in a
Predicate; the wraps decorator copies the name and docstring of the
original factory onto the wrapper. -/
def predicate_factory (func : PyFunc β (TruthFinder α)) : PyFunc β (Predicate α) :=
  { name := func.name
    doc := func.doc
    fn := fun args => ⟨func.fn args⟩ }

/-- Predicate wrapping a rule that can raise: the rule returns either a
raised exception or a value. -/
structure ExcPredicate (α ε : Type) where
  rule : α → Except ε PyVal

/-- The exception-aware item_passes: the body is exactly the rule call,
so a raised exception is returned unhandled. -/
def ExcPredicate.item_passes (p : ExcPredicate α ε) (item : α) : Except ε PyVal :=
  p.rule item

/-- The exception-aware call operator delegates to item_passes. -/
def ExcPredicate.call (p : ExcPredicate α ε) (item : α) : Except ε PyVal :=
  p.item_passes item

/-- The threshold factory of the spec example: given a threshold t it
returns the rule that an input is at least t. -/
def threshold : PyFunc Int (TruthFinder Int) :=
  { name := "threshold"
    doc := "rule builder comparing the input against a threshold"
    fn := fun t => fun x => .bool (decide (t ≤ x)) }

end Predicates

namespace Predicates

/-- The truthiness of an actual boolean is that boolean. -/
@[simp] theorem PyVal.truthy_bool (b : Bool) : (PyVal.bool b).truthy = b := rfl

/-- The numeric value of an actual boolean is 0 or 1. -/
@[simp] theorem PyVal.toInt_bool (b : Bool) :
    (PyVal.bool b).toInt = if b then 1 else 0 := rfl

/-- Helper: when every rule returns an actual boolean on the item, the
sum of the numeric values of the results counts the rules whose result
is true. -/
theorem sum_toInt_of_bools (rules : List (TruthFinder α)) (x : α)
    (h : ∀ r ∈ rules, ∃ b, r x = PyVal.bool b) :
    (rules.map fun r => (r x).toInt).sum
      = ((rules.filter fun r => (r x).truthy).length : Int) := by
  induction rules with
  | nil => simp
  | cons r rs ih =>
    obtain ⟨b, hb⟩ := h r (List.mem_cons_self ..)
    have hrs := ih fun r hr => h r (List.mem_cons_of_mem _ hr)
    rw [List.map_cons, List.sum_cons, List.filter_cons, hrs, hb]
    cases b <;> simp
    ring

/-- Claim C1: for rules each returning a boolean on the item, the
exclusive union passes the item iff exactly one rule evaluates true on
it; in particular, with three rules all true, the result is false. -/
theorem exclusiveUnion_exactly_one (rules : List (TruthFinder α)) (x : α)
    (h : ∀ r ∈ rules, ∃ b, r x = PyVal.bool b) :
    (((ExclusivePredicateUnion.mk rules).item_passes x).truthy = true
        ↔ (rules.filter fun r => (r x).truthy).length = 1)
      ∧ ((ExclusivePredicateUnion.mk
            [always_true, always_true, always_true]).item_passes x).truthy = false := by
  constructor
  · rw [ExclusivePredicateUnion.item_passes, PyVal.truthy,
      sum_toInt_of_bools rules x h]
    simp
  · rfl

/-- Witness for C1 at two concrete boolean rules over the integers. -/
theorem exclusiveUnion_exactly_one_witness :
    ((((ExclusivePredicateUnion.mk
          [fun _ : Int => PyVal.bool true, fun _ => PyVal.bool false]).item_passes
            0).truthy = true)
        ↔ (([fun _ : Int => PyVal.bool true, fun _ => PyVal.bool false].filter
              fun r => (r 0).truthy).length = 1))
      ∧ ((ExclusivePredicateUnion.mk
            [always_true, always_true, always_true]).item_passes (0 : Int)).truthy
          = false :=
  exclusiveUnion_exactly_one
    [fun _ : Int => PyVal.bool true, fun _ => PyVal.bool false] 0
    (by
      intro r hr
      rcases List.mem_cons.mp hr with h | hr
      · exact ⟨true, by rw [h]⟩
      rcases List.mem_cons.mp hr with h | hr
      · exact ⟨false, by rw [h]⟩
      · exact absurd hr (List.not_mem_nil r))

/-- Claim C2 counterexample: a rule returning the integer 5, a truthy
value that is not a boolean: item_passes returns the raw integer 5,
which is not the coerced boolean value of the rule result. -/
theorem item_passes_no_coercion :
    (Predicate.mk fun _ : Int => PyVal.int 5).item_passes 0 = PyVal.int 5
      ∧ PyVal.int 5 ≠ PyVal.bool ((PyVal.int 5).truthy) :=
  ⟨rfl, by decide⟩

/-- Claim C2 amended: item_passes returns the rule result unchanged,
with no coercion to an actual boolean: its truthiness equals the
truthiness of the rule result, and whenever the rule returns an actual
boolean that same boolean comes back. -/
theorem item_passes_returns_rule_result (p : Predicate α) (x : α) :
    p.item_passes x = p.rule x
      ∧ (p.item_passes x).truthy = (p.rule x).truthy
      ∧ ∀ b, p.rule x = PyVal.bool b → p.item_passes x = PyVal.bool b := by
  exact ⟨rfl, rfl, fun b hb => hb⟩

/-- Witness for C2 amended, at a concrete boolean-returning rule. -/
theorem item_passes_returns_rule_result_witness :
    (Predicate.mk fun _ : Int => PyVal.bool true).item_passes 0
        = (Predicate.mk fun _ : Int => PyVal.bool true).rule 0
      ∧ ((Predicate.mk fun _ : Int => PyVal.bool true).item_passes 0).truthy
          = ((Predicate.mk fun _ : Int => PyVal.bool true).rule 0).truthy
      ∧ ∀ b, (Predicate.mk fun _ : Int => PyVal.bool true).rule 0 = PyVal.bool b
          → (Predicate.mk fun _ : Int => PyVal.bool true).item_passes 0 = PyVal.bool b :=
  item_passes_returns_rule_result (Predicate.mk fun _ : Int => PyVal.bool true) 0

/-- Claim C3: inversion builds the difference of always_true and the
predicate itself, and evaluates to the logical negation of the
predicate on every item. -/
theorem invert_is_logical_negation (p : Predicate α) (x : α) :
    p.invert = PredicateDifference.mk always_true p.call
      ∧ p.invert.call x = PyVal.bool (!(p.call x).truthy) :=
  ⟨rfl, rfl⟩

/-- Claim C4: each operator form builds exactly the directly
constructed composite, so both evaluate identically on every item. -/
theorem operators_match_composites (a b : Predicate α) (x : α) :
    ((a.and b.call).call x = (PredicateIntersection.mk [a.call, b.call]).call x)
      ∧ ((a.or b.call).call x = (PredicateUnion.mk [a.call, b.call]).call x)
      ∧ ((a.sub b.call).call x = (PredicateDifference.mk a.call b.call).call x)
      ∧ ((a.xor b.call).call x
          = (ExclusivePredicateUnion.mk [a.call, b.call]).call x) :=
  ⟨rfl, rfl, rfl, rfl⟩

/-- Claim C5: the difference passes an item iff rule a is truthy and
rule b is falsy on it; the returned value is exactly the value of the
expression rule_a item and not rule_b item. -/
theorem difference_semantics (a b : TruthFinder α) (x : α) :
    (((PredicateDifference.mk a b).item_passes x).truthy
        = ((a x).truthy && !(b x).truthy))
      ∧ (PredicateDifference.mk a b).item_passes x = pyAnd (a x) (pyNot (b x)) := by
  refine ⟨?_, rfl⟩
  by_cases h : (a x).truthy
    <;> simp [PredicateDifference.item_passes, pyAnd, pyNot, h]

/-- Claim C6: filtered yields exactly the items passing the predicate,
as an order-preserving sublist of the input; the is-even predicate over
the list 1 to 6 yields 2, 4, 6. -/
theorem filtered_spec (p : Predicate α) (l : List α) :
    p.filtered l = l.filter (fun x => (p.item_passes x).truthy)
      ∧ List.Sublist (p.filtered l) l
      ∧ (∀ x, x ∈ p.filtered l ↔ x ∈ l ∧ (p.item_passes x).truthy = true)
      ∧ (Predicate.mk fun n : Int => PyVal.bool (decide (n % 2 = 0))).filtered
          [1, 2, 3, 4, 5, 6] = [2, 4, 6] := by
  refine ⟨rfl, List.filter_sublist l, fun x => List.mem_filter, by decide⟩

/-- Claim C7: when the rule raises on an item, both item_passes and the
call operator fail with exactly that exception. -/
theorem exception_propagates (p : ExcPredicate α ε) (x : α) (e : ε)
    (h : p.rule x = Except.error e) :
    p.item_passes x = Except.error e ∧ p.call x = Except.error e :=
  ⟨h, h⟩

/-- Witness for C7: a rule over the integers that always raises. -/
theorem exception_propagates_witness :
    (ExcPredicate.mk fun _ : Int => (Except.error "boom" : Except String PyVal)).item_passes
        0 = Except.error "boom"
      ∧ (ExcPredicate.mk fun _ : Int => (Except.error "boom" : Except String PyVal)).call
          0 = Except.error "boom" :=
  exception_propagates
    (ExcPredicate.mk fun _ : Int => (Except.error "boom" : Except String PyVal))
    0 "boom" rfl

/-- Claim C8: the wrapped factory applied to arguments yields a
Predicate wrapping the produced rule, evaluating like it on every item,
and the wrapper keeps the name and docstring of the original factory;
the threshold example at threshold 5 passes 6 and rejects 4. -/
theorem predicate_factory_spec (func : PyFunc β (TruthFinder α)) (args : β) (x : α) :
    ((predicate_factory func).fn args = Predicate.mk (func.fn args))
      ∧ ((predicate_factory func).fn args).call x = func.fn args x
      ∧ (predicate_factory func).name = func.name
      ∧ (predicate_factory func).doc = func.doc
      ∧ ((predicate_factory threshold).fn 5).call 6 = PyVal.bool true
      ∧ ((predicate_factory threshold).fn 5).call 4 = PyVal.bool false :=
  ⟨rfl, rfl, rfl, rfl, by decide, by decide⟩

/-- Claim C9: with an empty rule sequence, the intersection passes
every item while the union and the exclusive union pass none. -/
theorem empty_composites (α : Type) (x : α) :
    (PredicateIntersection.mk ([] : List (TruthFinder α))).item_passes x
        = PyVal.bool true
      ∧ (PredicateUnion.mk ([] : List (TruthFinder α))).item_passes x
          = PyVal.bool false
      ∧ (ExclusivePredicateUnion.mk ([] : List (TruthFinder α))).item_passes x
          = PyVal.bool false :=
  ⟨rfl, rfl, rfl⟩

/-- Claim C10: double inversion evaluates to the boolean coercion of
the predicate on every item, hence to the very same value whenever the
rule returns an actual boolean. -/
theorem double_invert (p : Predicate α) (x : α) :
    p.invert.invert.call x = PyVal.bool ((p.call x).truthy)
      ∧ ∀ b, p.rule x = PyVal.bool b → p.invert.invert.call x = p.call x := by
  have h1 : p.invert.invert.call x = PyVal.bool ((p.call x).truthy) := by
    simp [Predicate.invert, PredicateDifference.invert, PredicateDifference.call,
      PredicateDifference.item_passes, pyAnd, pyNot, always_true, PyVal.truthy]
  refine ⟨h1, fun b hb => ?_⟩
  rw [h1, Predicate.call, Predicate.item_passes, hb, PyVal.truthy]

/-- Witness for C10 at a concrete boolean-returning rule. -/
theorem double_invert_witness :
    (Predicate.mk fun _ : Int => PyVal.bool true).invert.invert.call 0
        = PyVal.bool (((Predicate.mk fun _ : Int => PyVal.bool true).call 0).truthy)
      ∧ ∀ b, (Predicate.mk fun _ : Int => PyVal.bool true).rule 0 = PyVal.bool b
          → (Predicate.mk fun _ : Int => PyVal.bool true).invert.invert.call 0
              = (Predicate.mk fun _ : Int => PyVal.bool true).call 0 :=
  double_invert (Predicate.mk fun _ : Int => PyVal.bool true) 0

end Predicates
